import Mathlib

/-!
Verification of the "Galileo AI Data Science Tutor" Streamlit application
(`BI_Agent.py`).  The application is a thin orchestration loop: it loads a
CSV table, asks an LLM endpoint (Groq) for analysis tasks and code snippets,
ships the snippet plus a serialized copy of the table to an n8n webhook for
execution, and renders the returned image or error.

The embedding below is shallow: every UI event handler of the source becomes
a pure Lean function from the session state (and an oracle value standing for
the response of the external capability that the handler consults) to the new
session state together with the list of messages rendered to the user.
External calls (Groq completions, the n8n HTTP POST, `pandas.read_csv`) are
modelled by explicit outcome arguments: `Except.ok` carries the value the
call returned, `Except.error` carries the text of the exception it raised.
An uncaught Python exception escaping a handler is modelled by the handler
itself returning `Except.error`.
-/

namespace BIAgent

/-! ### Python string primitives

`str.strip()` and `str.strip(chars)` in Python remove characters from BOTH
ends of the string; the argument of `strip(chars)` is treated as a SET of
characters, not as a substring.  We model both with `dropEnds`, which drops
the longest run of characters satisfying `p` from the front and from the
back of a character list. -/

/-- Drop the longest run of elements satisfying `p` from both ends. -/
def dropEnds {α : Type} (p : α → Bool) (l : List α) : List α :=
  (l.dropWhile p).rdropWhile p

/-- The whitespace characters removed by Python `str.strip()` (ASCII). -/
def pyWs (c : Char) : Bool :=
  c == ' ' || c == '\t' || c == '\n' || c == '\r' || c == '\x0b' || c == '\x0c'

/-- Python `s.strip()`: remove whitespace from both ends. -/
def pyStrip (s : String) : String :=
  String.mk (dropEnds pyWs s.data)

/-- Python `s.strip(chars)`: remove any character occurring in `chars`
from both ends of `s`. -/
def pyStripChars (chars : String) (s : String) : String :=
  String.mk (dropEnds (fun c => chars.data.contains c) s.data)

/-- Python truthiness of an optional string: `None` and `""` are falsy. -/
def pyTruthyStr : Option String → Bool
  | none => false
  | some s => s != ""

/-! ### Data model

`Table` models the pandas DataFrame held in `st.session_state.df`: ordered
column names, an index, and row-major rows (cell values modelled as
strings — their concrete type is irrelevant to every property below).
`JsonDict` models the JSON dictionaries exchanged with the n8n webhook,
restricted to the two keys the application ever consults
(`image_data`, `error`); a `none` field stands for an absent key. -/

structure Table where
  columns : List String
  index : List Nat
  rows : List (List String)
  deriving Repr, DecidableEq

structure JsonDict where
  image_data : Option String
  error : Option String
  deriving Repr, DecidableEq

/-- Python truthiness of the result dict: `if not result:` — the empty
dict is falsy. -/
def jsonTruthy (j : JsonDict) : Bool :=
  j.image_data.isSome || j.error.isSome

/-- `df.to_json(orient=split)`: column order, index, and row-major data. -/
structure SplitJson where
  columns : List String
  index : List Nat
  data : List (List String)
  deriving Repr, DecidableEq

def Table.to_json_split (t : Table) : SplitJson :=
  { columns := t.columns, index := t.index, data := t.rows }

/-- The payload POSTed to the n8n webhook:
`{"code": ..., "df_json": df.to_json(orient=split)}` (the `df_json` key
is present only when a DataFrame is loaded). -/
structure N8nPayload where
  code : String
  df_json : Option SplitJson
  deriving Repr, DecidableEq

def N8N_WEBHOOK_URL : String := "YOUR_N8N_PRODUCTION_WEBHOOK_URL_HERE"

/-- One HTTP request issued by `requests.post(url, json=payload, timeout=...)`. -/
structure HttpRequest where
  url : String
  payload : N8nPayload
  timeout : Nat
  deriving Repr, DecidableEq

/-- Outcome of the single `requests.post` call, as seen at the call site:
either a 2xx response whose JSON body is `body`, or one of the
`requests.exceptions.RequestException` subclasses (HTTP status error raised
by `raise_for_status`, connection failure, timeout), carrying the text of
the exception. -/
inductive HttpOutcome where
  | success (body : JsonDict)
  | httpError (desc : String)
  | connectionFailure (desc : String)
  | timeoutFailure (desc : String)
  deriving Repr, DecidableEq

/-- Outcome of one Groq chat-completion call: `Except.ok reply` when the API
returned `reply`, `Except.error e` when it raised an exception rendered as
`e`. -/
def GroqOutcome : Type := Except String String

/-! ### Helper functions of the source -/

/-- `call_groq(prompt, model)`: returns the completion text, or catches any
exception, renders `st.error(f"An error occurred with the Groq API: {e}")`
and returns `None`.  (The prompt and model only parameterize the external
call, which is modelled by the `outcome` oracle, so they do not appear.)
Returns the Python return value together with the rendered messages. -/
def call_groq (outcome : GroqOutcome) : Option String × List String :=
  match outcome with
  | Except.ok reply => (some reply, [])
  | Except.error e => (none, ["An error occurred with the Groq API: " ++ e])

/-- `run_code_in_n8n(code_to_run, df)`: builds the payload, POSTs it once to
`N8N_WEBHOOK_URL` with `timeout=60`, and returns the parsed JSON reply; any
`requests.exceptions.RequestException` is caught and converted into the
synthetic dict `{"error": f"Failed to connect to n8n execution engine: {e}"}`.
Returns the resulting dict together with the list of HTTP requests issued
(the body is straight-line: exactly one request, never retried). -/
def run_code_in_n8n (code_to_run : String) (df : Option Table)
    (outcome : HttpOutcome) : JsonDict × List HttpRequest :=
  let payload : N8nPayload :=
    { code := code_to_run, df_json := df.map Table.to_json_split }
  let req : HttpRequest :=
    { url := N8N_WEBHOOK_URL, payload := payload, timeout := 60 }
  match outcome with
  | HttpOutcome.success body => (body, [req])
  | HttpOutcome.httpError e =>
      ({ image_data := none,
         error := some ("Failed to connect to n8n execution engine: " ++ e) }, [req])
  | HttpOutcome.connectionFailure e =>
      ({ image_data := none,
         error := some ("Failed to connect to n8n execution engine: " ++ e) }, [req])
  | HttpOutcome.timeoutFailure e =>
      ({ image_data := none,
         error := some ("Failed to connect to n8n execution engine: " ++ e) }, [req])

/-! ### Session state -/

/-- The session-state bundle initialized by `init_session_state()`.  Fields
that Python initializes to a string but may later overwrite with `None`
(the return value of `call_groq`) are modelled as `Option String`, with
`some ""` standing for the initial empty string. -/
structure SessionState where
  code : String
  result : JsonDict
  df : Option Table
  problem_statement : String
  enhanced_problem_statement : Option String
  target_variable : Option String
  suggested_tasks : List String
  current_task : Option String
  explanation : Option String
  plan_generated_for : Option String
  deriving Repr, DecidableEq

/-- The defaults installed by `init_session_state()`. -/
def init_session_state : SessionState :=
  { code := "# Your Python code will appear here"
  , result := { image_data := none, error := none }
  , df := none
  , problem_statement := ""
  , enhanced_problem_statement := some ""
  , target_variable := none
  , suggested_tasks := []
  , current_task := none
  , explanation := some ""
  , plan_generated_for := none }

/-! ### Module 1 handlers: dataset ingestion -/

/-- Outcome of a `pandas` parse call (`read_csv` / `read_excel`):
`Except.ok t` when a table was parsed, `Except.error e` when the parser
raised an exception rendered as `e`. -/
def ParseOutcome : Type := Except String Table

/-- The "Upload a CSV file" branch:
`if uploaded_file: st.session_state.df = pd.read_csv(uploaded_file)`.
There is NO try/except around this `read_csv`, so a parse exception escapes
the handler uncaught — modelled by the handler returning `Except.error`. -/
def uploadCsvHandler (s : SessionState) (uploaded : Option ParseOutcome) :
    Except String SessionState :=
  match uploaded with
  | none => Except.ok s
  | some (Except.ok t) => Except.ok { s with df := some t }
  | some (Except.error e) => Except.error e

/-- The "Provide a URL" branch: `if url:` then
`try: st.session_state.df = pd.read_csv(url) except Exception as e: st.error(...)`.
The exception is caught; `df` is NOT reassigned in the except branch. -/
def urlCsvHandler (s : SessionState) (url : String) (parse : ParseOutcome) :
    SessionState × List String :=
  if url != "" then
    match parse with
    | Except.ok t => ({ s with df := some t }, [])
    | Except.error e => (s, ["Failed to load data from URL: " ++ e])
  else (s, [])

/-- The pre-defined-project dataset load:
`try: st.session_state.df = pd.read_csv(dataset_url)
 except Exception as e: st.error(...); st.session_state.df = None`. -/
def projectDatasetLoad (s : SessionState) (parse : ParseOutcome) :
    SessionState × List String :=
  match parse with
  | Except.ok t => ({ s with df := some t }, [])
  | Except.error e =>
      ({ s with df := none }, ["Failed to load data from URL: " ++ e])

/-- `load_project_sheet(category)`: reads one sheet of the Google Sheet into
a DataFrame, strips whitespace from its column names, and returns it; any
exception is caught, an error message is rendered, and `None` is returned
(leaving `st.session_state.df` untouched). -/
def load_project_sheet (category : String) (parse : ParseOutcome) :
    Option Table × List String :=
  match parse with
  | Except.ok df => (some { df with columns := df.columns.map pyStrip }, [])
  | Except.error e =>
      (none, ["Could not load the project list for the " ++ category ++
              " category. Error: " ++ e])

/-! ### Module 3 handlers: the guided analysis loop -/

/-- Split a character list at every occurrence of the separator `c`,
keeping empty segments — the semantics of Python `str.split(sep)` for a
one-character separator (splitting the empty string yields one empty segment). -/
def splitChar (c : Char) : List Char → List (List Char)
  | [] => [[]]
  | a :: t =>
    if a == c then [] :: splitChar c t
    else
      match splitChar c t with
      | [] => [[a]]
      | h :: t' => (a :: h) :: t'

/-- Python `s.split('\n')`. -/
def pySplitNewline (s : String) : List String :=
  (splitChar '\n' s.data).map String.mk

/-- The line-splitting applied to a Groq reply in the "Suggest Analysis
Steps" handler (and to the edited text area of Module 1):
`[t.strip() for t in tasks.split('\n') if t.strip()]`. -/
def parseTaskLines (reply : String) : List String :=
  ((pySplitNewline reply).filter (fun t => pyStrip t != "")).map (fun t => pyStrip t)

/-- The "Suggest Analysis Steps" button handler:
`tasks = call_groq(prompt)`;
`if tasks: st.session_state.suggested_tasks = [t.strip() for t in tasks.split('\n') if t.strip()]`. -/
def suggestTasksHandler (s : SessionState) (outcome : GroqOutcome) :
    SessionState × List String :=
  let (tasks, msgs) := call_groq outcome
  if pyTruthyStr tasks then
    ({ s with suggested_tasks := parseTaskLines (tasks.getD "") }, msgs)
  else (s, msgs)

/-- The fence stripping of the "Generate Code" handler:
`code.strip().strip("```python").strip("```")`.  Note that Python
`strip(chars)` removes a SET of characters from both ends, so the middle
call removes any run of backticks and of the letters p, y, t, h, o, n. -/
def stripCodeReply (reply : String) : String :=
  pyStripChars "```" (pyStripChars "```python" (pyStrip reply))

/-- The "Generate Code" button handler:
`code = call_groq(prompt)`;
`if code: st.session_state.code = code.strip().strip("```python").strip("```")`. -/
def generateCodeHandler (s : SessionState) (outcome : GroqOutcome) :
    SessionState × List String :=
  let (code, msgs) := call_groq outcome
  if pyTruthyStr code then
    ({ s with code := stripCodeReply (code.getD "") }, msgs)
  else (s, msgs)

/-- The "Execute Code" button handler:
`st.session_state.result = run_code_in_n8n(st.session_state.code, st.session_state.df)`;
then `if "error" not in st.session_state.result:`
`st.session_state.explanation = call_groq(prompt)` (assigned even when
`call_groq` returns `None`).  `httpOutcome` is the oracle for the n8n POST,
`explainOutcome` the oracle for the explanation completion. -/
def executeCodeHandler (s : SessionState) (httpOutcome : HttpOutcome)
    (explainOutcome : GroqOutcome) : SessionState × List String :=
  let result := (run_code_in_n8n s.code s.df httpOutcome).1
  let s₁ := { s with result := result }
  if result.error.isSome then (s₁, [])
  else
    let (expl, msgs) := call_groq explainOutcome
    ({ s₁ with explanation := expl }, msgs)

/-- The "Ask Tutor to Debug" button handler:
`fix = call_groq(prompt)`; `if fix: st.markdown(fix)`.
The reply is only rendered; no session-state field is assigned (`errText`
only parameterizes the prompt sent to the external capability). -/
def askTutorToDebugHandler (s : SessionState) (_errText : String)
    (outcome : GroqOutcome) : SessionState × List String :=
  let (fix, msgs) := call_groq outcome
  if pyTruthyStr fix then (s, msgs ++ [fix.getD ""]) else (s, msgs)

/-! ### The output panel (display of the execution result) -/

/-- Widgets rendered in the output column. -/
inductive RenderItem where
  | info (s : String)
  | image (bytes : String)
  | markdown (s : String)
  | errorBox (s : String)
  | codeBox (s : String)
  deriving Repr, DecidableEq

/-- Attribute names provided by the public API of the Python standard
library module `base64`.  Note that `b4decode` is NOT among them: the
attribute the source accesses on line 330 does not exist. -/
def base64ModuleAttrs : List String :=
  ["b16decode", "b16encode", "b32decode", "b32encode", "b32hexdecode",
   "b32hexencode", "b64decode", "b64encode", "b85decode", "b85encode",
   "a85decode", "a85encode", "decode", "decodebytes", "encode",
   "encodebytes", "standard_b64decode", "standard_b64encode",
   "urlsafe_b64decode", "urlsafe_b64encode"]

/-- Python attribute lookup on a module: raises `AttributeError` when the
attribute does not exist. -/
def pyModuleAttr (module : String) (attrs : List String) (name : String) :
    Except String Unit :=
  if attrs.contains name then Except.ok ()
  else Except.error ("AttributeError: module " ++ module ++
                     " has no attribute " ++ name)

/-- The widgets rendered after the image slot: the explanation markdown
(when truthy) and, when the result carries an `error` key, the error box
with the error text. -/
def panelTail (result : JsonDict) (explanation : Option String) :
    List RenderItem :=
  (if pyTruthyStr explanation then [RenderItem.markdown (explanation.getD "")]
   else [])
  ++ (match result.error with
      | some err => [RenderItem.errorBox "An error occurred:",
                     RenderItem.codeBox err]
      | none => [])

/-- The output column (source lines 323-339): renders the placeholder when
the result dict is empty; when the result has an `image_data` key, calls
`st.image(base64.b4decode(result["image_data"]), ...)` — the attribute
lookup `base64.b4decode` raises an uncaught `AttributeError`, modelled as
`Except.error`; then renders the explanation and the error box. -/
def outputPanel (result : JsonDict) (explanation : Option String) :
    Except String (List RenderItem) :=
  let intro : List RenderItem :=
    if jsonTruthy result then []
    else [RenderItem.info "Output will be displayed here."]
  match result.image_data with
  | some img =>
    (match pyModuleAttr "base64" base64ModuleAttrs "b4decode" with
     | Except.ok _ =>
         Except.ok (intro ++ [RenderItem.image img] ++ panelTail result explanation)
     | Except.error e => Except.error e)
  | none => Except.ok (intro ++ panelTail result explanation)

/-! ### Lemmas about `dropEnds` (the model of Python `strip`) -/

/-- The head of `l.dropWhile p`, if any, does not satisfy `p`. -/
theorem head?_all_dropWhile {α : Type} (p : α → Bool) (l : List α) :
    (l.dropWhile p).head?.all (fun c => !p c) = true := by
  have h := List.head?_dropWhile_not p l
  cases hh : (l.dropWhile p).head? with
  | none => rfl
  | some x =>
    rw [hh] at h
    simpa using h

/-- The head of `dropEnds p l`, if any, does not satisfy `p`. -/
theorem head?_all_dropEnds {α : Type} (p : α → Bool) (l : List α) :
    (dropEnds p l).head?.all (fun c => !p c) = true := by
  obtain ⟨t, ht⟩ := List.rdropWhile_prefix p (l.dropWhile p)
  cases hx : dropEnds p l with
  | nil => rfl
  | cons a x' =>
    have hx' : (l.dropWhile p).rdropWhile p = a :: x' := hx
    have hmem : (l.dropWhile p).head? = some a := by
      rw [← ht, hx']; rfl
    have h := head?_all_dropWhile p l
    rw [hmem] at h
    simpa using h

/-- The last element of `dropEnds p l`, if any, does not satisfy `p`. -/
theorem getLast?_all_dropEnds {α : Type} (p : α → Bool) (l : List α) :
    (dropEnds p l).getLast?.all (fun c => !p c) = true := by
  by_cases hne : dropEnds p l = []
  · rw [hne]; rfl
  · have h := List.rdropWhile_last_not p (l.dropWhile p) hne
    rw [List.getLast?_eq_getLast _ hne]
    simpa using h

/-- `dropEnds` is the identity on a list whose two ends do not satisfy `p`. -/
theorem dropEnds_eq_self {α : Type} {p : α → Bool} {l : List α}
    (hh : l.head?.all (fun c => !p c) = true)
    (hl : l.getLast?.all (fun c => !p c) = true) :
    dropEnds p l = l := by
  have h1 : l.dropWhile p = l := by
    cases l with
    | nil => rfl
    | cons a t =>
      have hpa : p a = false := by simpa using hh
      simp [List.dropWhile_cons, hpa]
  show (l.dropWhile p).rdropWhile p = l
  rw [h1, List.rdropWhile_eq_self_iff]
  intro hne
  rw [List.getLast?_eq_getLast _ hne] at hl
  simpa using hl

theorem dropEnds_idem {α : Type} (p : α → Bool) (l : List α) :
    dropEnds p (dropEnds p l) = dropEnds p l :=
  dropEnds_eq_self (head?_all_dropEnds p l) (getLast?_all_dropEnds p l)

/-- Weakening for `Option.all`. -/
theorem option_all_imp {α : Type} {q r : α → Bool} (h : ∀ c, q c = true → r c = true) :
    ∀ o : Option α, o.all q = true → o.all r = true := by
  intro o ho
  cases o with
  | none => rfl
  | some a => simp only [Option.all_some] at *; exact h _ ho

/-- Python `strip()` is idempotent. -/
theorem pyStrip_idem (s : String) : pyStrip (pyStrip s) = pyStrip s :=
  congrArg String.mk (dropEnds_idem pyWs s.data)

/-- A nonempty pattern is not a Boolean prefix of a list whose head is not
among the pattern's characters. -/
theorem isPrefixOf_eq_false_of_head_not_contains {l pre : List Char}
    (hpre : pre ≠ [])
    (h : l.head?.all (fun c => !(pre.contains c)) = true) :
    pre.isPrefixOf l = false := by
  cases pre with
  | nil => exact absurd rfl hpre
  | cons b bs =>
    cases l with
    | nil => rfl
    | cons c t =>
      simp only [List.head?_cons, Option.all_some] at h
      rw [List.isPrefixOf_cons₂]
      have hbc : (b == c) = false := by
        cases hbc : b == c
        · rfl
        · exfalso
          have hcb : b = c := by simpa using hbc
          subst hcb
          simp at h
      simp [hbc]

/-- `contains` is invariant under list reversal. -/
theorem contains_reverse {α : Type} [BEq α] [LawfulBEq α] (l : List α) (c : α) :
    l.reverse.contains c = l.contains c := by
  simp [List.contains, List.elem_eq_mem]

/-- Every character of the fence `"```"` is a character of `"```python"`. -/
theorem backtick_mem_imp (c : Char)
    (h3 : (("```" : String).data.contains c) = true) :
    (("```python" : String).data.contains c) = true := by
  simp only [List.contains, List.elem_eq_mem, decide_eq_true_eq] at h3 ⊢
  simp only [List.mem_cons, List.not_mem_nil, or_false] at h3
  rcases h3 with h | h | h <;> subst h <;> decide

/-- Contrapositive form of `backtick_mem_imp`, shaped for `option_all_imp`. -/
theorem not_python_imp_not_backtick (c : Char)
    (h : (!(("```python" : String).data.contains c)) = true) :
    (!(("```" : String).data.contains c)) = true := by
  cases h3 : ("```" : String).data.contains c
  · rfl
  · exact absurd (backtick_mem_imp c h3) (by simpa using h)

/-- The final `.strip("```")` of the Generate Code handler is redundant:
the preceding `.strip("```python")` already removed every boundary
character drawn from its character set, which includes the backtick. -/
theorem stripCode_collapse (reply : String) :
    stripCodeReply reply = pyStripChars "```python" (pyStrip reply) := by
  have h : dropEnds (fun c => ("```" : String).data.contains c)
      (pyStripChars "```python" (pyStrip reply)).data
      = (pyStripChars "```python" (pyStrip reply)).data :=
    dropEnds_eq_self
      (option_all_imp not_python_imp_not_backtick _ (head?_all_dropEnds _ _))
      (option_all_imp not_python_imp_not_backtick _ (getLast?_all_dropEnds _ _))
  show String.mk (dropEnds _ (pyStripChars "```python" (pyStrip reply)).data) = _
  rw [h]

/-! ### Claim theorems -/

/-- C3: for every snippet and table, when the HTTP POST of
`run_code_in_n8n` raises a connection or timeout failure, the function
returns a synthetic result whose `error` field describes the failure and
which has no `image_data` field; the request is issued exactly once with
the fixed per-call deadline `timeout=60`, and it is never retried (for
every possible outcome, exactly one request is issued). -/
theorem n8n_failure_synthesized_once_no_retry (code : String) (df : Option Table)
    (d : String) (h : HttpOutcome) :
    (run_code_in_n8n code df (HttpOutcome.connectionFailure d)).1
      = { image_data := none,
          error := some ("Failed to connect to n8n execution engine: " ++ d) }
  ∧ (run_code_in_n8n code df (HttpOutcome.timeoutFailure d)).1
      = { image_data := none,
          error := some ("Failed to connect to n8n execution engine: " ++ d) }
  ∧ (run_code_in_n8n code df h).2.length = 1
  ∧ (run_code_in_n8n code df h).2.all (fun r => r.timeout == 60) = true := by
  refine ⟨rfl, rfl, ?_, ?_⟩ <;> cases h <;> simp [run_code_in_n8n]

/-- C7: if the generation capability errors during task suggestion,
`call_groq` returns `None` and surfaces a visible error message, the
suggestion handler leaves the whole session state unchanged (so the loop
remains at `Idle`), and in particular the task list stays empty. -/
theorem groq_failure_leaves_loop_idle (s : SessionState) (e : String) :
    call_groq (Except.error e)
      = (none, ["An error occurred with the Groq API: " ++ e])
  ∧ suggestTasksHandler s (Except.error e)
      = (s, ["An error occurred with the Groq API: " ++ e])
  ∧ (suggestTasksHandler { s with suggested_tasks := [] } (Except.error e)).1.suggested_tasks
      = [] := by
  refine ⟨rfl, ?_, ?_⟩ <;> simp [suggestTasksHandler, call_groq, pyTruthyStr]

/-- C9: the session state holds exactly one current code snippet
(`SessionState.code`) and one current result slot (`SessionState.result`);
the execute handler overwrites that single slot with the fresh result of
`run_code_in_n8n`, and its entire output is independent of the previous
result, so the previous result is discarded and no history is kept. -/
theorem single_result_slot_overwrite (s : SessionState) (r' : JsonDict)
    (h : HttpOutcome) (eo : GroqOutcome) :
    executeCodeHandler { s with result := r' } h eo = executeCodeHandler s h eo
  ∧ (executeCodeHandler s h eo).1.result = (run_code_in_n8n s.code s.df h).1 := by
  constructor
  · rfl
  · cases h <;> cases eo <;>
      simp only [executeCodeHandler, run_code_in_n8n, call_groq] <;>
      split <;> rfl

/-- C8: executing a snippet never modifies the canonical session table:
`run_code_in_n8n` only sends a serialized copy of the table (column order,
index, row-major records), and the `df` field of the session state is
unchanged by task suggestion, code synthesis, execution, and the
explanation/debug handlers. -/
theorem session_table_read_only (s : SessionState) (o : GroqOutcome)
    (err c : String) (h : HttpOutcome) (eo : GroqOutcome) (t : Table) :
    (suggestTasksHandler s o).1.df = s.df
  ∧ (generateCodeHandler s o).1.df = s.df
  ∧ (executeCodeHandler s h eo).1.df = s.df
  ∧ (askTutorToDebugHandler s err o).1.df = s.df
  ∧ (run_code_in_n8n c (some t) h).2.all
      (fun r => r.payload.df_json
        == some { columns := t.columns, index := t.index, data := t.rows }) = true := by
  refine ⟨?_, ?_, ?_, ?_, ?_⟩
  · cases o <;> simp only [suggestTasksHandler, call_groq] <;> split <;> rfl
  · cases o <;> simp only [generateCodeHandler, call_groq] <;> split <;> rfl
  · cases h <;> cases eo <;>
      simp only [executeCodeHandler, run_code_in_n8n, call_groq] <;>
      split <;> rfl
  · cases o <;> simp only [askTutorToDebugHandler, call_groq] <;> split <;> rfl
  · cases h <;> simp [run_code_in_n8n, Table.to_json_split]

/-- C2 counterexample: after an execution error, the debug handler does NOT
replace the editable code snippet in session state — starting from the
initial state with a failing snippet, a Groq reply proposing corrected code
leaves `code` unchanged, so re-submitting execution does not run the
corrected snippet. -/
theorem debug_reply_not_stored_cex :
    ((askTutorToDebugHandler
        { init_session_state with
            code := "df.plot(x=1",
            result := { image_data := none, error := some "SyntaxError" } }
        "SyntaxError" (Except.ok "df.plot(x=1)")).1.code
      == "df.plot(x=1)") = false
  ∧ (askTutorToDebugHandler
        { init_session_state with
            code := "df.plot(x=1",
            result := { image_data := none, error := some "SyntaxError" } }
        "SyntaxError" (Except.ok "df.plot(x=1)")).1.code = "df.plot(x=1" := by
  exact ⟨by decide, rfl⟩

/-- C2 amended: when the user invokes the debug action after an execution
error, the corrected snippet proposed by the generation capability is only
rendered to the user (when non-empty); the session state — in particular the
editable code snippet — is unchanged, so re-submitting execution re-runs the
original snippet. -/
theorem debug_reply_rendered_only (s : SessionState) (err fix : String)
    (o : GroqOutcome) (h : HttpOutcome) (eo : GroqOutcome) :
    (askTutorToDebugHandler s err o).1 = s
  ∧ askTutorToDebugHandler s err (Except.ok fix) = (s, cond (fix != "") [fix] [])
  ∧ (executeCodeHandler (askTutorToDebugHandler s err o).1 h eo).1.result
      = (run_code_in_n8n s.code s.df h).1 := by
  have h1 : (askTutorToDebugHandler s err o).1 = s := by
    cases o <;> simp only [askTutorToDebugHandler, call_groq] <;> split <;> rfl
  refine ⟨h1, ?_, ?_⟩
  · simp only [askTutorToDebugHandler, call_groq, pyTruthyStr]
    cases hfx : fix != "" <;> simp [hfx]
  · rw [h1]
    cases h <;> cases eo <;>
      simp only [executeCodeHandler, run_code_in_n8n, call_groq] <;>
      split <;> rfl

/-- C1 (code bug): the output panel does NOT survive every response of the
external execution capability — on a successful response carrying an
`image_data` field, line 330 evaluates `base64.b4decode`, an attribute the
`base64` module does not provide, so the handler raises an uncaught
`AttributeError` instead of rendering; an error-only response, by contrast,
is rendered without raising. -/
theorem image_response_crashes_output_panel :
    outputPanel { image_data := some "iVBORw0KGgoAAAANSUhEUg", error := none }
        (some "")
      = Except.error "AttributeError: module base64 has no attribute b4decode"
  ∧ outputPanel { image_data := none, error := some "NameError" } (some "")
      = Except.ok [RenderItem.errorBox "An error occurred:",
                   RenderItem.codeBox "NameError"] := by
  exact ⟨rfl, rfl⟩

/-- C4 counterexample: the CSV-upload ingestion path does not catch parse
failures — `pd.read_csv(uploaded_file)` is not wrapped in try/except, so a
malformed upload propagates the parser exception out of the handler instead
of surfacing a caught failure. -/
theorem upload_parse_failure_uncaught_cex :
    uploadCsvHandler init_session_state
        (some (Except.error "ParserError: Error tokenizing data"))
      = Except.error "ParserError: Error tokenizing data" := rfl

/-- C4 amended: on the CSV-by-URL path and the spreadsheet paths a malformed
input yields a caught parse failure that is surfaced to the user and the
loop continues (the URL handler leaves the session table as it was — unset
if none was loaded; the pre-defined dataset load sets it to `None`; the
sheet loader returns `None` and touches no session table).  The CSV-upload
path, however, does not catch parse failures: a malformed upload raises an
uncaught exception. -/
theorem ingestion_failures_caught_on_url_and_sheet_paths (s : SessionState)
    (url category e : String) :
    urlCsvHandler s url (Except.error e)
      = cond (url != "") (s, ["Failed to load data from URL: " ++ e]) (s, [])
  ∧ projectDatasetLoad s (Except.error e)
      = ({ s with df := none }, ["Failed to load data from URL: " ++ e])
  ∧ load_project_sheet category (Except.error e)
      = (none, ["Could not load the project list for the " ++ category ++
                " category. Error: " ++ e]) := by
  refine ⟨?_, rfl, rfl⟩
  simp only [urlCsvHandler]
  cases hu : url != "" <;> simp [hu]

/-- C5: for every reply of the generation capability, the suggestion
handler (run from its reachable states, whose task list is empty) stores as
the task list exactly the reply split on newline boundaries with every
entry whitespace-trimmed and all whitespace-only lines dropped; every
stored entry is its own trim and non-empty. -/
theorem suggest_tasks_parse_spec (s : SessionState) (reply : String) :
    (suggestTasksHandler { s with suggested_tasks := [] }
        (Except.ok reply)).1.suggested_tasks = parseTaskLines reply
  ∧ (parseTaskLines reply).all
      (fun t => (pyStrip t == t) && (t != "")) = true := by
  constructor
  · by_cases h : reply = ""
    · subst h
      have hp : parseTaskLines "" = [] := by decide
      rw [hp]
      rfl
    · simp [suggestTasksHandler, call_groq, pyTruthyStr, h]
  · rw [List.all_eq_true]
    intro t ht
    rw [parseTaskLines, List.mem_map] at ht
    obtain ⟨u, hu, rfl⟩ := ht
    rw [List.mem_filter] at hu
    have hne := hu.2
    simp only [Bool.and_eq_true, pyStrip_idem]
    exact ⟨by simp, hne⟩

/-- C6: the snippet stored by the Generate Code handler never begins or ends
with a markdown code-fence marker: after the stripping, the fence `"```"`
(the prefix of every fence marker, with or without a language tag) is
neither a prefix nor a suffix of the stored code, and the handler stores
exactly the stripped reply whenever the reply is non-empty. -/
theorem stripped_code_no_fence_boundary (s : SessionState) (reply : String) :
    (("```" : String).data.isPrefixOf (stripCodeReply reply).data) = false
  ∧ (("```" : String).data.isSuffixOf (stripCodeReply reply).data) = false
  ∧ (generateCodeHandler s (Except.ok reply)).1.code
      = cond (reply != "") (stripCodeReply reply) s.code := by
  refine ⟨?_, ?_, ?_⟩
  · apply isPrefixOf_eq_false_of_head_not_contains (by decide)
    exact head?_all_dropEnds _ _
  · simp only [List.isSuffixOf]
    apply isPrefixOf_eq_false_of_head_not_contains (by decide)
    rw [List.head?_reverse]
    apply option_all_imp _ _ (getLast?_all_dropEnds
      (fun c => ("```" : String).data.contains c)
      (pyStripChars "```python" (pyStrip reply)).data)
    intro c hc
    rw [contains_reverse]
    exact hc
  · simp only [generateCodeHandler, call_groq, pyTruthyStr]
    cases hr : reply != "" <;> simp [hr]

/-- C10: the fence stripping of the Generate Code handler is a
character-set strip, not substring removal: it coincides with removing
every leading and trailing character drawn from the set of characters of
`"```python"` (so the final `.strip("```")` is redundant), the boundary of
its output never carries a character of that set, and on the fence-free
reply `"print(1)"` it strips the leading `p`, returning `"rint(1)"` —
stripping is not the identity on fence-free replies. -/
theorem fence_strip_is_charset_strip :
    (∀ reply, stripCodeReply reply = pyStripChars "```python" (pyStrip reply))
  ∧ (∀ reply,
      ((stripCodeReply reply).data.head?.all
          (fun c => !(("```python" : String).data.contains c)) = true)
    ∧ ((stripCodeReply reply).data.getLast?.all
          (fun c => !(("```python" : String).data.contains c)) = true))
  ∧ stripCodeReply "print(1)" = "rint(1)"
  ∧ (("print(1)" : String).data.contains (Char.ofNat 96)) = false
  ∧ ((stripCodeReply "print(1)" == "print(1)") = false) := by
  refine ⟨stripCode_collapse, ?_, by decide, by decide, by decide⟩
  intro reply
  rw [stripCode_collapse]
  exact ⟨head?_all_dropEnds _ _, getLast?_all_dropEnds _ _⟩

end BIAgent
